import Mathlib

/-!
Verification development for `amt-rcs` (src/amt-rcs.js), the Intel AMT Remote
Configuration Service. The JavaScript module is shallowly embedded: every
definition below is translated from the source file; Node/forge/crypto library
primitives (SHA-256, MD5, PKCS#12 decoding, randomness, signing, JSON parsing,
the file system) are supplied through an explicit `Env` record of function
parameters, since the source only observes their input/output behaviour.

JavaScript dynamic-value conventions used throughout:
  * a possibly-`undefined`/`null` value of string type is `Option String`
    (`none` covering both `undefined` and `null`, which behave identically
    under `==` and truthiness tests in every expression of this module);
  * loose equality `==` between such values is `jsStrEq`;
  * an uncaught JavaScript exception is the `.thrown` constructor of
    `JsResult`; an `{errorText: ...}` object returned to the caller is
    `.errorText`.
-/

namespace AmtRcs

/-- Byte sequences (Node `Buffer`s) as lists of naturals; every byte produced
by the model is reduced `% 256`. -/
abbrev Bytes := List Nat

/-- JavaScript errors that the source can raise without catching them. -/
inductive JsError where
  /-- A `TypeError` (property access on `undefined`, `Buffer.concat` on a
  non-buffer, ...). The string names the offending site. -/
  | typeError (site : String)
  /-- A `ReferenceError`: the named identifier is not declared in any
  enclosing scope (the module is strict CommonJS code). -/
  | referenceError (ident : String)
deriving DecidableEq

/-- Result of running a piece of the source: a normal value, an
`{errorText}` object handed back to the caller, or an uncaught exception. -/
inductive JsResult (α : Type) where
  | ok (a : α)
  | errorText (msg : String)
  | thrown (e : JsError)
deriving DecidableEq

/-- JavaScript `==` on two values that are each a string or
`undefined`/`null` (`none`): `undefined == undefined` and
`undefined == null` are true, a string never equals `undefined`. -/
def jsStrEq : Option String → Option String → Bool
  | none, none => true
  | some a, some b => a == b
  | _, _ => false

/-- JavaScript string conversion of a possibly-undefined string, as it
happens inside a `+` concatenation: `undefined` renders as "undefined". -/
def jsToString : Option String → String
  | none => "undefined"
  | some s => s

/-- JavaScript `String.prototype.toUpperCase` restricted to ASCII data (hex
digests only contain ASCII). -/
def jsToUpper (s : String) : String := .mk (s.data.map Char.toUpper)

/-- When `pat` is a prefix of the list, the remainder after it. -/
def dropPrefixChars : List Char → List Char → Option (List Char)
  | [], l => some l
  | _ :: _, [] => none
  | p :: ps, c :: cs => if c = p then dropPrefixChars ps cs else none

/-- Delete the first occurrence of `pat` from the list (scan left to right,
cut the pattern out at the first position where it matches). -/
def replaceOnceChars (pat : List Char) : List Char → List Char
  | [] => []
  | c :: cs =>
    match dropPrefixChars pat (c :: cs) with
    | some rest => rest
    | none => c :: replaceOnceChars pat cs

/-- JavaScript `String.prototype.replace` with a plain-string pattern
replaces only the first occurrence; the source always replaces with the
empty string. -/
def jsReplaceOnce (s pat : String) : String :=
  .mk (replaceOnceChars pat.data s.data)

/-- One entry of the device-supplied `message.hashes` array as the trust
check reads it: the only access the source performs is
`certHashes[x].certificateHash`, so an entry is modelled by that projection
(`none` when the entry is a bare string or an object without the field, in
which case the access yields `undefined`). -/
structure HashEntry where
  certificateHash : Option String
deriving DecidableEq

/-- A certificate as `dumpPfx` consumes it from the forge PKCS#12 bags:
its PEM rendering (`forge.pki.certificateToPem`), the subject and issuer
identifier hashes (`cert.subject.hash`, `cert.issuer.hash`), and its DER
encoding (input of the root fingerprint). -/
structure PfxCert where
  pem : String
  subjectHash : String
  issuerHash : String
  der : Bytes
deriving DecidableEq

/-- A forge private-key object. The source never inspects it; it is only
handed to `forge.pki.privateKeyToPem` inside `signString`. -/
structure PrivateKey where
  keyId : Nat
deriving DecidableEq

/-- Output of `convertPfxToObject`: certificate bags and shrouded-key bags
in container order. -/
structure PfxObj where
  certs : List PfxCert
  keys : List PrivateKey
deriving DecidableEq

/-- What `forge.pkcs12.pkcs12FromAsn1` exposes of a decrypted container. -/
structure Pkcs12 where
  certBags : List PfxCert
  keyBags : List PrivateKey
deriving DecidableEq

/-- A parsed inbound protocol message (the JSON body of a transport
message). Absent fields are `none`. -/
structure InboundMessage where
  action : Option String := none
  profile : Option String := none
  fqdn : Option String := none
  realm : Option String := none
  nonce : Option String := none
  hashes : Option (List HashEntry) := none
  uuid : Option String := none
deriving DecidableEq

/-- One entry of `rcsConfig.AMTConfigurations`. -/
structure AMTConfiguration where
  ProfileName : String
  AMTPassword : String
  ConfigurationScript : Option String
deriving DecidableEq

/-- One entry of `rcsConfig.AMTDomains`. -/
structure AMTDomain where
  DomainSuffix : String
  ProvisioningCert : String
  ProvisioningCertPassword : String
deriving DecidableEq

/-- The in-memory configuration snapshot the service reads. -/
structure RcsConfig where
  AMTConfigurations : List AMTConfiguration
  AMTDomains : List AMTDomain
deriving DecidableEq

/-- Per-connection mutable state, `obj.connection[index]` in the source.
Created as the empty object `{}` (all fields `undefined`). -/
structure Connection where
  profile : Option String := none
  dnsSuffix : Option String := none
  digestRealm : Option String := none
  fwNonce : Option Bytes := none
  certHashes : Option (List HashEntry) := none
  amtGuid : Option String := none
deriving DecidableEq

/-- The library primitives the source calls, as opaque function parameters:
`entropy` backs `crypto.randomBytes`; `sha256hex` is forge SHA-256 with hex
output (lowercase, as `digest().toHex()` produces); `md5hex` is
`crypto.createHash('md5')...digest('hex')`; `signSha256` is the raw signature
Node `crypto.createSign('sha256')` produces for a message and key
(`none` when the signer throws); `fileExists` is `fs.existsSync`;
`readFileBytes`/`readFile` are `fs.readFileSync` (binary and utf8; the utf8
variant can throw, hence `Except`); `pkcs12FromAsn1` is
`forge.pkcs12.pkcs12FromAsn1` (`none` when decryption fails and the call
throws); `jsonParse` is `JSON.parse` (`none` when it throws);
`base64decode` is `Buffer.from(s, 'base64')`. -/
structure Env where
  entropy : Nat → Nat
  sha256hex : Bytes → String
  md5hex : String → String
  signSha256 : Bytes → PrivateKey → Option Bytes
  fileExists : String → Bool
  readFileBytes : String → Bytes
  readFile : String → Except Unit String
  pkcs12FromAsn1 : Bytes → String → Option Pkcs12
  jsonParse : String → Option InboundMessage
  base64decode : String → Bytes

/-- The standard base64 alphabet. -/
def base64Alphabet : List Char :=
  "ABCDEFGHIJKLMNOPQRSTUVWXYZabcdefghijklmnopqrstuvwxyz0123456789+/".data

/-- The base64 digit for a 6-bit group. -/
def base64Char (n : Nat) : Char := base64Alphabet.getD n '='

/-- Encode a final group of at most three bytes. -/
def base64Chunk : List Nat → List Char
  | [] => []
  | [b0] => [base64Char (b0 / 4), base64Char (b0 % 4 * 16), '=', '=']
  | [b0, b1] =>
      [base64Char (b0 / 4), base64Char (b0 % 4 * 16 + b1 / 16),
       base64Char (b1 % 16 * 4), '=']
  | b0 :: b1 :: b2 :: _ =>
      [base64Char (b0 / 4), base64Char (b0 % 4 * 16 + b1 / 16),
       base64Char (b1 % 16 * 4 + b2 / 64), base64Char (b2 % 64)]

/-- Base64 encoding of a byte list (`Buffer.prototype.toString('base64')`,
and the encoding Node applies to a signature passed `'base64'`). -/
def base64encodeList : List Nat → List Char
  | b0 :: b1 :: b2 :: rest => base64Chunk [b0, b1, b2] ++ base64encodeList rest
  | rest => base64Chunk rest

/-- Base64 encoding as a string. -/
def base64encode (b : Bytes) : String := .mk (base64encodeList b)

/-- `crypto.randomBytes(n)`: n bytes drawn from the entropy stream. -/
def randomBytes (entropy : Nat → Nat) (n : Nat) : Bytes :=
  (List.range n).map (fun i => entropy i % 256)

/-- Source `generateNonce` (line 393):
`Buffer.from(crypto.randomBytes(20), 0, 20)` — 20 random bytes. -/
def generateNonce (env : Env) : Bytes := randomBytes env.entropy 20

/-- Source `convertPfxToObject` (lines 326-353): read the container file,
re-decode it (the base64 round trip `Buffer -> base64 -> forge der` is the
identity on the byte content), decrypt the PKCS#12 structure — a throwing
`pkcs12FromAsn1` is caught and turned into the fixed error object (the typo
"provisining" is the source's) — then copy every certificate bag and every
shrouded-key bag in container order. -/
def convertPfxToObject (env : Env) (pfxpath passphrase : String) :
    Except String PfxObj :=
  match env.pkcs12FromAsn1 (env.readFileBytes pfxpath) passphrase with
  | none => .error "Decrypting provisining certificate failed."
  | some pfx => .ok { certs := pfx.certBags, keys := pfx.keyBags }

/-- The `leaf`/`root` objects `dumpPfx` builds up. They start as the empty
object `{}`, so every field can be `undefined`. -/
structure CertInfo where
  pem : Option String := none
  subject : Option String := none
  issuer : Option String := none
deriving DecidableEq

/-- Lines 241-242 of `dumpPfx`: strip the first BEGIN marker and the first
END marker from the PEM rendering (the commented-out newline strip is not
active in the source). -/
def trimPem (pem : String) : String :=
  jsReplaceOnce (jsReplaceOnce pem "-----BEGIN CERTIFICATE-----")
    "-----END CERTIFICATE-----"

/-- The record `dumpPfx` keeps for one certificate. -/
def toCertInfo (c : PfxCert) : CertInfo :=
  { pem := some (trimPem c.pem), subject := some c.subjectHash,
    issuer := some c.issuerHash }

/-- Accumulator of the classification loop of `dumpPfx` (lines 237-262). -/
structure ClassifyState where
  leaf : CertInfo
  root : CertInfo
  interObj : List CertInfo
  fingerprint : Option String
deriving DecidableEq

/-- The classification loop over the certificates after index 0: a
certificate whose subject hash equals its issuer hash overwrites `root` and
the fingerprint (SHA-256 over the DER, uppercased); anything else is
appended to `interObj`. -/
def classifyTail (sha256hex : Bytes → String) :
    List PfxCert → ClassifyState → ClassifyState
  | [], st => st
  | c :: rest, st =>
    if c.subjectHash = c.issuerHash then
      classifyTail sha256hex rest
        { st with root := toCertInfo c,
                  fingerprint := some (jsToUpper (sha256hex c.der)) }
    else
      classifyTail sha256hex rest
        { st with interObj := st.interObj ++ [toCertInfo c] }

/-- Lines 237-262 of `dumpPfx`: index 0 is recorded as the leaf
unconditionally; the rest is classified by `classifyTail`. With no
certificates at all, `leaf` (like `root`) stays the empty object. -/
def classifyCerts (sha256hex : Bytes → String) : List PfxCert → ClassifyState
  | [] => { leaf := {}, root := {}, interObj := [], fingerprint := none }
  | c :: rest =>
      classifyTail sha256hex rest
        { leaf := toCertInfo c, root := {}, interObj := [], fingerprint := none }

/-- Source `sortCertificate` (lines 401-407): true when the intermediate's
issuer hash `==` the root's subject hash (JavaScript loose equality; with no
root found, `root.subject` is `undefined` and the comparison is false). -/
def sortCertificate (intermediate root : CertInfo) : Bool :=
  jsStrEq intermediate.issuer root.subject

/-- Lines 266-282 of `dumpPfx`: leaf PEM first, then the intermediates for
which `sortCertificate` is false (claimed adjacent to the leaf), then those
for which it is true (adjacent to the root), then the root PEM. An entry is
`none` when the corresponding object never got a `pem` field (pushing
`undefined` into the array). -/
def assembleChain (st : ClassifyState) : List (Option String) :=
  [st.leaf.pem]
    ++ (st.interObj.filter (fun i => !(sortCertificate i st.root))).map
        (fun i => i.pem)
    ++ (st.interObj.filter (fun i => sortCertificate i st.root)).map
        (fun i => i.pem)
    ++ [st.root.pem]

/-- The provisioning certificate object `dumpPfx` returns: the ordered chain
and the private key (lines 283-289 overwrite `privateKey` with each key bag,
so the last one wins; with no key bag the field stays absent). -/
structure ProvCertObj where
  certChain : List (Option String)
  privateKey : Option PrivateKey
deriving DecidableEq

/-- The fixed trust-mismatch error text of line 296. -/
def untrustedMsg : String :=
  "Provisioning Certificate doesn't match any trusted certificates from AMT"

/-- Lines 291-296 of `dumpPfx`: return the certificate object at the first
entry whose `certificateHash` is `==` the fingerprint; otherwise the
untrusted-certificate error object. -/
def trustCheckLoop : List HashEntry → Option String → ProvCertObj →
    JsResult ProvCertObj
  | [], _, _ => .errorText untrustedMsg
  | e :: rest, fp, o =>
      if jsStrEq e.certificateHash fp then .ok o else trustCheckLoop rest fp o

/-- Source `dumpPfx` (lines 229-298). `certHashes` is
`obj.connection[index].certHashes`: when the device never supplied hashes it
is `undefined` and line 291 throws a `TypeError` reading `.length`. The
`if (pfxobj)` and `Array.isArray` guards of the source are always satisfied
for the object `convertPfxToObject` returns. -/
def dumpPfx (sha256hex : Bytes → String) (certHashes : Option (List HashEntry))
    (pfxobj : PfxObj) : JsResult ProvCertObj :=
  match certHashes with
  | none => .thrown (.typeError "certHashes.length with certHashes undefined")
  | some hs =>
      trustCheckLoop hs (classifyCerts sha256hex pfxobj.certs).fingerprint
        { certChain := assembleChain (classifyCerts sha256hex pfxobj.certs),
          privateKey := pfxobj.keys.getLast? }

/-- The missing-domain error text of line 187. -/
def missingDomainMsg : String := "AMT domain suffix not specified."

/-- The unknown-domain error text of line 202. -/
def domainMismatchMsg : String :=
  "Specified AMT domain suffix does not match list of available AMT domain suffixes."

/-- Source `getProvisioningCertObj` (lines 183-220): reject a missing or
empty domain; look for the first configured domain whose `DomainSuffix ==
domain`; with a match, check the certificate file exists (`fs.existsSync`
never throws here, so the `try` around it changes nothing), decode the
container and hand the result to `dumpPfx`. -/
def getProvisioningCertObj (env : Env) (config : RcsConfig)
    (domain : Option String) (conn : Connection) : JsResult ProvCertObj :=
  match domain with
  | none => .errorText missingDomainMsg
  | some s =>
    if s = "" then .errorText missingDomainMsg
    else
      match config.AMTDomains.find? (fun d => d.DomainSuffix == s) with
      | none => .errorText domainMismatchMsg
      | some d =>
        if env.fileExists d.ProvisioningCert = false then
          .errorText "AMT Provisioning Certificate not found on server"
        else
          match convertPfxToObject env d.ProvisioningCert
              d.ProvisioningCertPassword with
          | .error e => .errorText e
          | .ok pfxobj => dumpPfx env.sha256hex conn.certHashes pfxobj

/-- Source `signString` (lines 361-372): sign the message with the key. With
`key` undefined (no key bag in the container) `forge.pki.privateKeyToPem`
throws, and with a failing signer `signer.sign` throws; both are caught by
the `try` and produce the fixed error object. A successful signature is
returned base64-encoded (the `'base64'` argument of `signer.sign`). -/
def signString (env : Env) (message : Bytes) (key : Option PrivateKey) :
    Except String String :=
  match key with
  | none => .error "Unable to create Digital Signature"
  | some k =>
    match env.signSha256 message k with
    | none => .error "Unable to create Digital Signature"
    | some sig => .ok (base64encode sig)

/-- The unknown-profile error text of line 165. -/
def profileMismatchMsg : String :=
  "Specified AMT profile name does not match list of available AMT profiles."

/-- Lines 150-167 of `remoteConfiguration`: with no profile recorded
(`undefined`, `null` or the empty string are all falsy or `== ""`), take the
`AMTPassword` of `AMTConfigurations[0]` — on an empty configuration list
that indexing yields `undefined` and reading `.AMTPassword` throws.
Otherwise scan for a matching `ProfileName` and fail with the fixed error
object when none matches. The default arm, `AMTConfigurations[0].AMTPassword`,
is `firstAmtPassword`. -/
def firstAmtPassword (config : RcsConfig) : JsResult String :=
  match config.AMTConfigurations with
  | [] => .thrown (.typeError "AMTPassword of undefined")
  | c :: _ => .ok c.AMTPassword

/-- The profile test of line 151 (`!profile || profile == "" || profile ==
null`) followed by the matching loop of lines 153-166. -/
def resolveAmtPassword (config : RcsConfig) (profile : Option String) :
    JsResult String :=
  match profile with
  | none => firstAmtPassword config
  | some pn =>
    if pn = "" then firstAmtPassword config
    else
      match config.AMTConfigurations.find? (fun c => c.ProfileName == pn) with
      | some c => .ok c.AMTPassword
      | none => .errorText profileMismatchMsg

/-- Lines 170-174 of `remoteConfiguration`: `profileScript` starts as
`null`; when `AMTConfigurations[cindex]` exists and its
`ConfigurationScript` is neither `null` nor the empty string the file is
read, a throwing read being caught back to `null`. When `cindex` is not an
index of `AMTConfigurations` the member access on `undefined` throws. -/
def resolveProfileScript (env : Env) (cfgOpt : Option AMTConfiguration) :
    JsResult (Option String) :=
  match cfgOpt with
  | none => .thrown (.typeError "ConfigurationScript of undefined")
  | some cfg =>
    match cfg.ConfigurationScript with
    | none => .ok none
    | some path =>
      if path = "" then .ok none
      else
        match env.readFile path with
        | .ok s => .ok (some s)
        | .error _ => .ok none

/-- The outbound configuration payload (success case of
`remoteConfiguration`): the JavaScript object after line 175. Its `certs`
member is the `ProvCertObj` after `delete rcsObj.certs.privateKey`. -/
structure RcsPayload where
  action : String
  certs : ProvCertObj
  nonce : String
  signature : String
  password : String
  profileScript : Option String
deriving DecidableEq

/-- Source `remoteConfiguration` (lines 125-176), the configuration engine:
missing connection check; certificate resolution via
`getProvisioningCertObj` (returning its error object on failure); save and
delete the private key; generate the console nonce, concatenate
`fwNonce || nonce` (with `fwNonce` undefined, `Buffer.concat` throws a
`TypeError`) and sign it; resolve the AMT password, derive the MD5 digest of
`'admin:' + digestRealm + ':' + amtPassword` (an unset realm renders as the
string "undefined"); resolve the profile script; assemble the payload. -/
def remoteConfiguration (env : Env) (config : RcsConfig)
    (connOpt : Option Connection) (cindex : Nat) (fwNonce : Option Bytes) :
    JsResult RcsPayload :=
  match connOpt with
  | none => .errorText "WebSocket connection not found in list of connected clients."
  | some conn =>
    match getProvisioningCertObj env config conn.dnsSuffix conn with
    | .errorText e => .errorText e
    | .thrown e => .thrown e
    | .ok certsObj =>
      match fwNonce with
      | none => .thrown (.typeError "Buffer.concat with fwNonce undefined")
      | some fw =>
        match signString env (fw ++ generateNonce env) certsObj.privateKey with
        | .error e => .errorText e
        | .ok signature =>
          match resolveAmtPassword config conn.profile with
          | .errorText e => .errorText e
          | .thrown e => .thrown e
          | .ok pw =>
            match resolveProfileScript env config.AMTConfigurations[cindex]? with
            | .thrown e => .thrown e
            | .errorText e => .errorText e
            | .ok script =>
              .ok
                { action := "acmactivate"
                  certs := { certsObj with privateKey := none }
                  nonce := base64encode (generateNonce env)
                  signature := signature
                  password := env.md5hex
                    ("admin:" ++ jsToString conn.digestRealm ++ ":" ++ pw)
                  profileScript := script }

/-- Source `obj.sendMessage` (lines 308-314). Line 310 reads the identifier
`status`: no parameter, `var`, function or module-level binding of that name
exists anywhere in the file, and a Node CommonJS module has no global
`status`, so the read throws `ReferenceError: status is not defined` before
any message reaches the transport. (The doc comment of the source still
documents a `status` parameter the signature no longer takes.) -/
def sendMessage {α : Type} (_index : Nat) (_message : α) : JsResult Unit :=
  .thrown (.referenceError "status")

/-- An inbound transport message before the dispatcher resolves it: a raw
string (to be JSON-parsed) or an already-parsed object. -/
inductive WsMessage where
  | str (s : String)
  | object (m : InboundMessage)
deriving DecidableEq

/-- JavaScript truthiness of a possibly-undefined string field: only a
non-empty string passes an `if (message.field)` test. -/
def truthy : Option String → Bool
  | none => false
  | some s => !(s == "")

/-- Lines 88-93 of `wsConnectionHandler`: merge every truthy field of an
`acmactivate` message into the connection state. `message.nonce` is decoded
from base64; `message.hashes` is an array, which is truthy even when
empty, so its presence alone merges it. -/
def mergeMessage (env : Env) (conn : Connection) (m : InboundMessage) :
    Connection :=
  let conn := if truthy m.profile then { conn with profile := m.profile } else conn
  let conn := if truthy m.fqdn then { conn with dnsSuffix := m.fqdn } else conn
  let conn := if truthy m.realm then { conn with digestRealm := m.realm } else conn
  let conn :=
    if truthy m.nonce then
      { conn with fwNonce := some (env.base64decode (jsToString m.nonce)) }
    else conn
  let conn :=
    match m.hashes with
    | some hs => { conn with certHashes := some hs }
    | none => conn
  if truthy m.uuid then { conn with amtGuid := m.uuid } else conn

/-- Lookup in the `obj.connection` map (a JavaScript object keyed by the
connection index, modelled as an association list). -/
def lookupConn : List (Nat × Connection) → Nat → Option Connection
  | [], _ => none
  | (i, c) :: rest, j => if i = j then some c else lookupConn rest j

/-- Assignment `obj.connection[index] = c`. -/
def setConn : List (Nat × Connection) → Nat → Connection →
    List (Nat × Connection)
  | [], j, c => [(j, c)]
  | (i, c0) :: rest, j, c =>
      if i = j then (j, c) :: rest else (i, c0) :: setConn rest j c

/-- `delete obj.connection[index]` (the `close` event). -/
def removeConn : List (Nat × Connection) → Nat → List (Nat × Connection)
  | [], _ => []
  | (i, c0) :: rest, j =>
      if i = j then removeConn rest j else (i, c0) :: removeConn rest j

/-- The `switch (event)` of `wsConnectionHandler` (lines 85-116) once the
message is resolved to an object. `acmactivate`: merge the device fields,
run `remoteConfiguration`, then send the result — an error result reaches
line 96, whose bare identifier `sendMessage` is not declared anywhere
(the function is the property `obj.sendMessage`), throwing
`ReferenceError: sendMessage is not defined`; a success result reaches
`obj.sendMessage` on line 97, which throws in turn (see `sendMessage`); a
`TypeError` thrown inside `remoteConfiguration` escapes directly. `error`
and `finish` only log; `close` deletes the connection entry; an unknown
event only logs. -/
def dispatchEvent (env : Env) (config : RcsConfig)
    (conns : List (Nat × Connection)) (event : String) (m : InboundMessage)
    (index : Nat) : List (Nat × Connection) × JsResult Unit :=
  if event = "acmactivate" then
    let conn := mergeMessage env ((lookupConn conns index).getD {}) m
    let conns := setConn conns index conn
    match remoteConfiguration env config (lookupConn conns index) index
        conn.fwNonce with
    | .thrown e => (conns, .thrown e)
    | .errorText _ => (conns, .thrown (.referenceError "sendMessage"))
    | .ok p => (conns, sendMessage index p)
  else if event = "close" then
    (removeConn conns index, .ok ())
  else
    (conns, .ok ())

/-- Source `wsConnectionHandler` (lines 78-117): ensure a connection entry
exists; a string message is JSON-parsed — on a parse failure the `catch`
block builds the protocol error object and calls `obj.sendMessage`, whose
`ReferenceError` (see `sendMessage`) propagates out of the handler — and a
parsed message with a truthy `action` overrides the transport event name
(the override only happens in the string branch of the source); then the
event is dispatched. Returns the connection map after the call and the
call's outcome. -/
def wsConnectionHandler (env : Env) (config : RcsConfig)
    (conns : List (Nat × Connection)) (event : String) (message : WsMessage)
    (index : Nat) : List (Nat × Connection) × JsResult Unit :=
  let conns :=
    match lookupConn conns index with
    | none => setConn conns index {}
    | some _ => conns
  match message with
  | .str s =>
    match env.jsonParse s with
    | none => (conns, sendMessage index "Invalid message from client")
    | some m =>
      let event :=
        match m.action with
        | some a => if a == "" then event else a
        | none => event
      dispatchEvent env config conns event m index
  | .object m => dispatchEvent env config conns event m index

/-! Concrete instances used to evaluate the model on explicit inputs. -/

/-- A leaf certificate (not self-signed). -/
def leafCertH : PfxCert :=
  { pem := "LEAF", subjectHash := "s1", issuerHash := "s2", der := [1] }

/-- A self-signed root certificate. -/
def rootCertH : PfxCert :=
  { pem := "ROOT", subjectHash := "s2", issuerHash := "s2", der := [2] }

/-- An intermediate whose issuer hash equals the root's subject hash. -/
def interRootH : PfxCert :=
  { pem := "INTR", subjectHash := "s3", issuerHash := "s2", der := [3] }

/-- An intermediate whose issuer hash differs from the root's subject hash. -/
def interLeafH : PfxCert :=
  { pem := "INTL", subjectHash := "s4", issuerHash := "s3", der := [4] }

/-- A concrete private key object. -/
def keyH : PrivateKey := ⟨7⟩

/-- An environment under which every step of a configuration request
succeeds: the container decodes to a leaf and a self-signed root plus one
key, signing succeeds, the certificate file exists. -/
def envH : Env :=
  { entropy := fun _ => 0
    sha256hex := fun _ => "ff"
    md5hex := fun s => "md5:" ++ s
    signSha256 := fun _ _ => some [3, 4]
    fileExists := fun _ => true
    readFileBytes := fun _ => []
    readFile := fun _ => .ok "script-content"
    pkcs12FromAsn1 := fun _ _ =>
      some { certBags := [leafCertH, rootCertH], keyBags := [keyH] }
    jsonParse := fun _ => none
    base64decode := fun _ => [] }

/-- A configuration with one profile and one domain. -/
def cfgH : RcsConfig :=
  { AMTConfigurations :=
      [{ ProfileName := "default", AMTPassword := "pw1",
         ConfigurationScript := none }]
    AMTDomains :=
      [{ DomainSuffix := "d.com", ProvisioningCert := "cert.pfx",
         ProvisioningCertPassword := "pp" }] }

/-- A fully-identified connection whose trusted hash matches the root
fingerprint the environment `envH` produces (uppercase of "ff"). -/
def connH : Connection :=
  { profile := none, dnsSuffix := some "d.com", digestRealm := some "R",
    fwNonce := some [9], certHashes := some [⟨some "FF"⟩], amtGuid := none }

/-- The payload the happy-path run of `remoteConfiguration` produces
(extracted by evaluation; the fallback arm is never taken). -/
def payloadH : RcsPayload :=
  match remoteConfiguration envH cfgH (some connH) 0 (some [9]) with
  | .ok p => p
  | _ =>
    { action := "", certs := { certChain := [], privateKey := none },
      nonce := "", signature := "", password := "", profileScript := none }

/-- `envH` with a container holding a single, non-self-signed certificate:
no root certificate exists in the chain. -/
def env4 : Env :=
  { envH with
    pkcs12FromAsn1 :=
      fun _ _ => some { certBags := [leafCertH], keyBags := [keyH] } }

/-- A connection whose device-supplied trusted-hash entry carries no
`certificateHash` member (for example the device sent its hashes as bare
hex strings, which is what the inbound-protocol description prescribes):
the property access yields `undefined`. -/
def conn4 : Connection := { connH with certHashes := some [⟨none⟩] }

/-- `connH` with no domain suffix recorded. -/
def connNoDomain : Connection := { connH with dnsSuffix := none }

/-- `connH` with a domain suffix matching no configured domain. -/
def connBadDomain : Connection := { connH with dnsSuffix := some "x.com" }

/-- `connH` with a profile name matching no configured profile. -/
def connBadProfile : Connection := { connH with profile := some "nope" }

/-- A 64-character lowercase hex digest, the shape forge's
`digest().toHex()` returns for SHA-256. -/
def lowHashC1 : String :=
  "aaaaaaaaaaaaaaaaaaaaaaaaaaaaaaaaaaaaaaaaaaaaaaaaaaaaaaaaaaaaaaaa"

/-- The uppercased form of `lowHashC1`. -/
def upHashC1 : String :=
  "AAAAAAAAAAAAAAAAAAAAAAAAAAAAAAAAAAAAAAAAAAAAAAAAAAAAAAAAAAAAAAAA"

/-- A container with a leaf, a self-signed root and one key. -/
def pfx1 : PfxObj := { certs := [leafCertH, rootCertH], keys := [keyH] }

/-- An uppercase hexadecimal character: a digit or A-F. The root
fingerprint is `jsToUpper` of a hex digest, so all its characters have this
shape, and in particular none is a space. -/
def hexUpperChar (c : Char) : Bool :=
  c.isDigit || ('A' ≤ c && c ≤ 'F')

/-- Whether a run of the configuration engine produced a full payload
(rather than an error object or an exception). -/
def resultIsPayload : JsResult RcsPayload → Bool
  | .ok _ => true
  | _ => false

/-- The certificate chain carried by a successful engine result. -/
def resultChain : JsResult RcsPayload → List (Option String)
  | .ok p => p.certs.certChain
  | _ => []

/-! Helper lemmas. -/

/-- `jsStrEq` against a defined string is exact string equality. -/
theorem jsStrEq_some_right (x : Option String) (F : String) :
    jsStrEq x (some F) = true ↔ x = some F := by
  cases x <;> simp [jsStrEq]

/-- The trust loop accepts exactly when some entry satisfies `jsStrEq`. -/
theorem trustCheckLoop_ok_iff (hs : List HashEntry) (fp : Option String)
    (o : ProvCertObj) :
    trustCheckLoop hs fp o = .ok o ↔
      ∃ e ∈ hs, jsStrEq e.certificateHash fp = true := by
  induction hs with
  | nil => simp [trustCheckLoop]
  | cons e rest ih =>
    by_cases h : jsStrEq e.certificateHash fp
    · simp [trustCheckLoop, h]
    · simp [trustCheckLoop, h, ih]

/-- When no entry satisfies `jsStrEq`, the trust loop returns the fixed
untrusted-certificate error object. -/
theorem trustCheckLoop_fail (hs : List HashEntry) (fp : Option String)
    (o : ProvCertObj) (h : ∀ e ∈ hs, ¬ jsStrEq e.certificateHash fp = true) :
    trustCheckLoop hs fp o = .errorText untrustedMsg := by
  induction hs with
  | nil => rfl
  | cons e rest ih =>
    rw [trustCheckLoop, if_neg (h e (by simp))]
    exact ih (fun x hx => h x (by simp [hx]))

/-- A 64-character string of uppercase hex digits (the shape of a root
fingerprint) is not a substring of the untrusted-certificate error text:
the text is 72 characters long and every 64-character window of it
contains a space. -/
theorem fingerprint_not_in_untrustedMsg (F : String) (hlen : F.length = 64)
    (hhex : ∀ c ∈ F.data, hexUpperChar c = true) :
    ¬ F.data <:+: untrustedMsg.data := by
  intro hinf
  obtain ⟨s, t, hst⟩ := hinf
  have hFlen : F.data.length = 64 := hlen
  have hmsg : untrustedMsg.data.length = 72 := by decide
  have hslen : s.length ≤ 8 := by
    have h := congrArg List.length hst
    simp only [List.length_append, hFlen, hmsg] at h
    omega
  have hdrop : F.data ++ t = untrustedMsg.data.drop s.length := by
    rw [← hst, List.append_assoc, List.drop_left]
  have hF : F.data = (untrustedMsg.data.drop s.length).take 64 := by
    rw [← hdrop, List.take_left' hFlen]
  have hsp : (' ' : Char) ∈ F.data := by
    rw [hF]
    generalize hk : s.length = k at hslen
    interval_cases k <;> decide
  exact absurd (hhex ' ' hsp) (by decide)

/-- `jsStrEq` against `undefined` holds exactly for `undefined`. -/
theorem jsStrEq_none_right (x : Option String) :
    jsStrEq x none = true ↔ x = none := by
  cases x <;> simp [jsStrEq]

/-- The classification loop processes an appended list in two stages. -/
theorem classifyTail_append (sha : Bytes → String) (l1 l2 : List PfxCert)
    (st : ClassifyState) :
    classifyTail sha (l1 ++ l2) st
      = classifyTail sha l2 (classifyTail sha l1 st) := by
  induction l1 generalizing st with
  | nil => rfl
  | cons c rest ih =>
    rw [List.cons_append, classifyTail, classifyTail]
    split <;> exact ih _

/-- Over certificates none of which is self-signed, the classification loop
only appends intermediates, in input order; leaf, root and fingerprint are
untouched. -/
theorem classifyTail_no_root (sha : Bytes → String) (l : List PfxCert)
    (st : ClassifyState) (h : ∀ c ∈ l, ¬ c.subjectHash = c.issuerHash) :
    classifyTail sha l st
      = { st with interObj := st.interObj ++ l.map toCertInfo } := by
  induction l generalizing st with
  | nil => simp [classifyTail]
  | cons c rest ih =>
    rw [classifyTail, if_neg (h c (by simp))]
    rw [ih _ (fun x hx => h x (by simp [hx]))]
    simp

/-- Filtering a mapped list of certificate records. -/
theorem filter_map_toCertInfo (p : CertInfo → Bool) (l : List PfxCert) :
    (l.map toCertInfo).filter p
      = (l.filter (fun c => p (toCertInfo c))).map toCertInfo := by
  induction l with
  | nil => rfl
  | cons c rest ih =>
    rw [List.map_cons, List.filter_cons, List.filter_cons]
    split <;> simp_all

/-- `sortCertificate` on two fully-populated records compares the hashes. -/
theorem sortCertificate_toCertInfo (c r : PfxCert) :
    sortCertificate (toCertInfo c) (toCertInfo r)
      = (c.issuerHash == r.subjectHash) := rfl


/-- Inverting a successful `signString`: the key was present, the raw signer
succeeded, and the result is the base64 encoding of the raw signature. -/
theorem signString_ok_inv (env : Env) (m : Bytes) (keyOpt : Option PrivateKey)
    (s : String) (h : signString env m keyOpt = .ok s) :
    ∃ k sig, keyOpt = some k ∧ env.signSha256 m k = some sig
      ∧ s = base64encode sig := by
  cases keyOpt with
  | none => simp [signString] at h
  | some k =>
    rw [signString] at h
    cases hs : env.signSha256 m k with
    | none => rw [hs] at h; simp at h
    | some sig =>
      rw [hs] at h
      injection h with h
      exact ⟨k, sig, rfl, hs, h.symm⟩

/-- Inverting a successful `remoteConfiguration` run: every stage succeeded
and the payload is exactly the object assembled on line 175 from the stage
results. -/
theorem remoteConfiguration_ok_inv (env : Env) (config : RcsConfig)
    (conn : Connection) (cindex : Nat) (fwOpt : Option Bytes) (p : RcsPayload)
    (h : remoteConfiguration env config (some conn) cindex fwOpt = .ok p) :
    ∃ o fw pw cfg,
      getProvisioningCertObj env config conn.dnsSuffix conn = .ok o
      ∧ fwOpt = some fw
      ∧ signString env (fw ++ generateNonce env) o.privateKey = .ok p.signature
      ∧ resolveAmtPassword config conn.profile = .ok pw
      ∧ config.AMTConfigurations[cindex]? = some cfg
      ∧ resolveProfileScript env (some cfg) = .ok p.profileScript
      ∧ p = { action := "acmactivate",
              certs := { o with privateKey := none },
              nonce := base64encode (generateNonce env),
              signature := p.signature,
              password := env.md5hex
                ("admin:" ++ jsToString conn.digestRealm ++ ":" ++ pw),
              profileScript := p.profileScript } := by
  rw [remoteConfiguration] at h
  cases hg : getProvisioningCertObj env config conn.dnsSuffix conn with
  | errorText e => rw [hg] at h; simp at h
  | thrown e => rw [hg] at h; simp at h
  | ok o =>
    rw [hg] at h
    cases fwOpt with
    | none => simp at h
    | some fw =>
      simp only at h
      cases hsig : signString env (fw ++ generateNonce env) o.privateKey with
      | error e => rw [hsig] at h; simp at h
      | ok s =>
        rw [hsig] at h
        cases hpw : resolveAmtPassword config conn.profile with
        | errorText e => rw [hpw] at h; simp at h
        | thrown e => rw [hpw] at h; simp at h
        | ok pw =>
          rw [hpw] at h
          cases hcfg : config.AMTConfigurations[cindex]? with
          | none => rw [hcfg] at h; simp [resolveProfileScript] at h
          | some cfg =>
            rw [hcfg] at h
            cases hscript : resolveProfileScript env (some cfg) with
            | thrown e => rw [hscript] at h; simp at h
            | errorText e => rw [hscript] at h; simp at h
            | ok script =>
              rw [hscript] at h
              simp only at h
              cases h
              exact ⟨o, fw, pw, cfg, rfl, rfl, hsig, rfl, rfl, hscript, rfl⟩

/-! Claim theorems. -/

/-- Claim C1, amended: trust validation passes — returning the certificate
object — exactly when the computed fingerprint (already uppercase hex) is
literally, case-sensitively, the `certificateHash` of some recorded entry;
no case normalization is applied to the device-supplied hashes. When the
collection is empty or records no exact match, validation fails with the
fixed untrusted-certificate error object, whose text cannot contain the
fingerprint (no 64-character run of uppercase hex digits occurs in it). -/
theorem C1_trust_validation_exact (H : List HashEntry) (F : String)
    (o : ProvCertObj) :
    (trustCheckLoop H (some F) o = .ok o ↔ ∃ e ∈ H, e.certificateHash = some F)
    ∧ ((¬ ∃ e ∈ H, e.certificateHash = some F) →
        trustCheckLoop H (some F) o = .errorText untrustedMsg)
    ∧ (F.length = 64 → (∀ c ∈ F.data, hexUpperChar c = true) →
        ¬ F.data <:+: untrustedMsg.data) := by
  refine ⟨?_, ?_, ?_⟩
  · rw [trustCheckLoop_ok_iff]
    constructor
    · rintro ⟨e, he, hq⟩
      exact ⟨e, he, (jsStrEq_some_right _ _).1 hq⟩
    · rintro ⟨e, he, hq⟩
      exact ⟨e, he, (jsStrEq_some_right _ _).2 hq⟩
  · intro hne
    exact trustCheckLoop_fail _ _ _
      (fun e he h => hne ⟨e, he, (jsStrEq_some_right _ _).1 h⟩)
  · exact fingerprint_not_in_untrustedMsg F

/-- Claim C1, witness: with the fingerprint recorded verbatim (uppercase)
the check passes, and a concrete 64-hex-character fingerprint is not
contained in the untrusted-certificate error text. -/
theorem C1_witness :
    trustCheckLoop [⟨some upHashC1⟩] (some upHashC1)
        { certChain := [], privateKey := none }
      = .ok { certChain := [], privateKey := none }
    ∧ ¬ upHashC1.data <:+: untrustedMsg.data :=
  ⟨(C1_trust_validation_exact [⟨some upHashC1⟩] upHashC1
      { certChain := [], privateKey := none }).1.2 ⟨_, by simp, rfl⟩,
   (C1_trust_validation_exact [] upHashC1
      { certChain := [], privateKey := none }).2.2 (by decide) (by decide)⟩

/-- Claim C1, counterexample to the claim as stated: the computed root
fingerprint is the uppercased digest, the uppercase-hex-normalized form of
the device-supplied hash collection contains it — so the claim predicts a
pass — yet `dumpPfx` fails with the untrusted-certificate error, because
the source compares the uppercase fingerprint against the recorded hashes
without normalizing them. -/
theorem C1_counterexample :
    (classifyCerts (fun _ => lowHashC1) pfx1.certs).fingerprint = some upHashC1
    ∧ upHashC1 ∈ [lowHashC1].map jsToUpper
    ∧ dumpPfx (fun _ => lowHashC1) (some [⟨some lowHashC1⟩]) pfx1
        = .errorText untrustedMsg := by
  decide

/-- Claim C2: no successful outbound configuration payload carries private
key material — the `privateKey` member obtained from the certificate
container is deleted from the certificate object before the payload is
returned (line 139), so the payload's `certs` object never has one. (The
failure payloads are bare `errorText` strings by type; the signature is
produced by the signing primitive, never from raw key bytes.) -/
theorem C2_no_private_key_in_payload (env : Env) (config : RcsConfig)
    (connOpt : Option Connection) (cindex : Nat) (fwOpt : Option Bytes)
    (p : RcsPayload)
    (h : remoteConfiguration env config connOpt cindex fwOpt = .ok p) :
    p.certs.privateKey = none := by
  cases connOpt with
  | none => rw [remoteConfiguration] at h; simp at h
  | some conn =>
    obtain ⟨o, fw, pw, cfg, -, -, -, -, -, -, hp⟩ :=
      remoteConfiguration_ok_inv env config conn cindex fwOpt p h
    rw [hp]

/-- Claim C2, witness: a complete successful run, whose payload indeed has
no private key. -/
theorem C2_witness :
    remoteConfiguration envH cfgH (some connH) 0 (some [9]) = .ok payloadH
    ∧ payloadH.certs.privateKey = none :=
  ⟨by decide,
   C2_no_private_key_in_payload envH cfgH (some connH) 0 (some [9]) payloadH
     (by decide)⟩

/-- Claim C3: for a certificate list whose index-0 entry is the leaf, with
exactly one self-signed certificate among the rest (at an arbitrary
position) and at most two intermediates, the assembled `certChain` starts
with the leaf PEM, continues with the intermediates whose issuer hash
differs from the root's subject hash, then those whose issuer hash equals
it (each group in input order), and ends with the root PEM — for every
arrangement of the intermediates before and after the root. -/
theorem C3_chain_order (sha : Bytes → String) (c0 r : PfxCert)
    (pre post : List PfxCert)
    (hc0 : ¬ c0.subjectHash = c0.issuerHash)
    (hr : r.subjectHash = r.issuerHash)
    (hpre : ∀ c ∈ pre, ¬ c.subjectHash = c.issuerHash)
    (hpost : ∀ c ∈ post, ¬ c.subjectHash = c.issuerHash)
    (hlen : pre.length + post.length ≤ 2) :
    assembleChain (classifyCerts sha (c0 :: (pre ++ r :: post)))
      = some (trimPem c0.pem)
          :: (((pre ++ post).filter
                (fun c => !(c.issuerHash == r.subjectHash))).map
                (fun c => some (trimPem c.pem))
              ++ ((pre ++ post).filter
                    (fun c => c.issuerHash == r.subjectHash)).map
                  (fun c => some (trimPem c.pem))
              ++ [some (trimPem r.pem)]) := by
  have hstate : classifyCerts sha (c0 :: (pre ++ r :: post))
      = { leaf := toCertInfo c0, root := toCertInfo r,
          interObj := (pre ++ post).map toCertInfo,
          fingerprint := some (jsToUpper (sha r.der)) } := by
    show classifyTail sha (pre ++ r :: post) _ = _
    rw [show pre ++ r :: post = pre ++ ([r] ++ post) from rfl]
    rw [classifyTail_append, classifyTail_append]
    rw [classifyTail_no_root sha pre _ hpre]
    rw [classifyTail, if_pos hr, classifyTail]
    rw [classifyTail_no_root sha post _ hpost]
    simp [List.map_append]
  rw [hstate]
  rw [assembleChain]
  rw [filter_map_toCertInfo, filter_map_toCertInfo]
  simp only [sortCertificate_toCertInfo, List.map_map]
  rfl

/-- Claim C3, witness: a concrete chain with both kinds of intermediate, in
a scrambled input order, is reordered as the claim states. -/
theorem C3_witness :
    assembleChain (classifyCerts (fun _ => "ff")
        (leafCertH :: ([interLeafH] ++ rootCertH :: [interRootH])))
      = some (trimPem leafCertH.pem)
          :: ((([interLeafH] ++ [interRootH]).filter
                (fun c => !(c.issuerHash == rootCertH.subjectHash))).map
                (fun c => some (trimPem c.pem))
              ++ (([interLeafH] ++ [interRootH]).filter
                    (fun c => c.issuerHash == rootCertH.subjectHash)).map
                  (fun c => some (trimPem c.pem))
              ++ [some (trimPem rootCertH.pem)]) :=
  C3_chain_order (fun _ => "ff") leafCertH rootCertH [interLeafH] [interRootH]
    (by decide) rfl (by decide) (by decide) (by decide)

/-- Claim C4, amended: there is no typed incomplete-chain failure in the
code. A container with zero self-signed certificates leaves the fingerprint
undefined, so — provided every recorded trusted-hash entry actually carries
a `certificateHash` string — the request fails with the generic
untrusted-certificate error; and a container with no private key makes
signing fail with the generic signature error. (When a recorded hash entry
lacks a `certificateHash`, the trust check can pass on `undefined ==
undefined` and a partial chain is emitted: see the counterexample.) -/
theorem C4_no_root_no_key (env : Env) (sha : Bytes → String)
    (hs : List HashEntry) (pfx : PfxObj) (m : Bytes) :
    ((∀ c ∈ pfx.certs, ¬ c.subjectHash = c.issuerHash) →
     (∀ e ∈ hs, ¬ e.certificateHash = none) →
     dumpPfx sha (some hs) pfx = .errorText untrustedMsg)
    ∧ signString env m none = .error "Unable to create Digital Signature" := by
  constructor
  · intro hz hw
    have hfp : (classifyCerts sha pfx.certs).fingerprint = none := by
      cases hc : pfx.certs with
      | nil => rfl
      | cons c rest =>
        rw [classifyCerts,
          classifyTail_no_root sha rest _
            (fun x hx => hz x (by rw [hc]; exact List.mem_cons_of_mem c hx))]
    rw [dumpPfx, hfp]
    exact trustCheckLoop_fail hs none _
      (fun e he h => hw e he ((jsStrEq_none_right _).1 h))
  · rfl

/-- Claim C4, witness: a rootless container against a well-formed trusted
hash fails with the untrusted-certificate error, and signing without a key
fails with the signature error. -/
theorem C4_witness :
    dumpPfx (fun _ => "ff") (some [⟨some "AA"⟩])
        { certs := [leafCertH], keys := [keyH] } = .errorText untrustedMsg
    ∧ signString envH [9] none = .error "Unable to create Digital Signature" :=
  ⟨(C4_no_root_no_key envH (fun _ => "ff") [⟨some "AA"⟩]
      { certs := [leafCertH], keys := [keyH] } [9]).1 (by decide) (by decide),
   (C4_no_root_no_key envH (fun _ => "ff") [⟨some "AA"⟩]
      { certs := [leafCertH], keys := [keyH] } [9]).2⟩

/-- Claim C4, counterexample to the claim as stated: a container that
decrypts but holds zero self-signed certificates does not produce any
typed failure — with a recorded trusted-hash entry that lacks a
`certificateHash` member (for example the bare hex strings of the inbound
protocol description), `undefined == undefined` lets the trust check pass,
and the engine returns a full payload whose chain contains an undefined
entry in place of the root PEM: a partial chain reaches the outbound
payload. -/
theorem C4_counterexample :
    resultIsPayload (remoteConfiguration env4 cfgH (some conn4) 0 (some [9]))
      = true
    ∧ none ∈ resultChain
        (remoteConfiguration env4 cfgH (some conn4) 0 (some [9])) := by
  decide

/-- Claim C5: on every successful configuration resolution the console
nonce is the 20 bytes drawn from the randomness source, the outbound nonce
is its base64 encoding, and the signature is the base64 encoding of the raw
SHA-256 signature computed with the container's private key over
`firmwareNonce ++ consoleNonce`, firmware nonce first. -/
theorem C5_nonce_and_signature (env : Env) (config : RcsConfig)
    (conn : Connection) (cindex : Nat) (fw : Bytes) (p : RcsPayload)
    (h : remoteConfiguration env config (some conn) cindex (some fw) = .ok p) :
    (generateNonce env).length = 20
    ∧ p.nonce = base64encode (generateNonce env)
    ∧ ∃ o k sig,
        getProvisioningCertObj env config conn.dnsSuffix conn = .ok o
        ∧ o.privateKey = some k
        ∧ env.signSha256 (fw ++ generateNonce env) k = some sig
        ∧ p.signature = base64encode sig := by
  obtain ⟨o, fw2, pw, cfg, hg, hfw, hsig, -, -, -, hp⟩ :=
    remoteConfiguration_ok_inv env config conn cindex (some fw) p h
  injection hfw with hfw
  subst hfw
  obtain ⟨k, sig, hk, hraw, hsg⟩ :=
    signString_ok_inv env _ o.privateKey p.signature hsig
  refine ⟨?_, ?_, o, k, sig, hg, hk, hraw, hsg⟩
  · simp [generateNonce, randomBytes]
  · rw [hp]

/-- Claim C5, witness: the happy-path run satisfies all the nonce and
signature properties. -/
theorem C5_witness :
    (generateNonce envH).length = 20
    ∧ payloadH.nonce = base64encode (generateNonce envH)
    ∧ ∃ o k sig,
        getProvisioningCertObj envH cfgH connH.dnsSuffix connH = .ok o
        ∧ o.privateKey = some k
        ∧ envH.signSha256 ([9] ++ generateNonce envH) k = some sig
        ∧ payloadH.signature = base64encode sig :=
  C5_nonce_and_signature envH cfgH connH 0 [9] payloadH (by decide)

/-- Claim C6: contrary to the claim, failures do not surface as `errorText`
payloads — the dispatcher crashes. Concretely: a non-JSON string message
makes the handler enter the `catch` block, whose `obj.sendMessage` call
reads the undeclared identifier `status` (line 310) and throws
`ReferenceError: status is not defined`, which escapes the connection
handler; and this happens for every inbound string that fails to parse. -/
theorem C6_dispatcher_crash :
    (wsConnectionHandler envH cfgH [] "message" (.str "hello") 5).2
      = .thrown (.referenceError "status")
    ∧ (∀ (env : Env) (config : RcsConfig) (conns : List (Nat × Connection))
        (event s : String) (index : Nat),
        env.jsonParse s = none →
        (wsConnectionHandler env config conns event (.str s) index).2
          = .thrown (.referenceError "status")) := by
  constructor
  · decide
  · intro env config conns event s index h
    rw [wsConnectionHandler]
    simp [h, sendMessage]

/-- Claim C7: with no domain suffix recorded the engine fails with the
missing-domain error; with a recorded suffix matching no configured
`DomainSuffix` it returns exactly the fixed domain-mismatch `errorText` —
and since the conclusion holds for every environment, no certificate file
access or container extraction influences (or is needed for) the result. -/
theorem C7_domain_errors (env : Env) (config : RcsConfig) (conn : Connection)
    (cindex : Nat) (fwOpt : Option Bytes) (s : String) :
    (conn.dnsSuffix = none →
      remoteConfiguration env config (some conn) cindex fwOpt
        = .errorText missingDomainMsg)
    ∧ (conn.dnsSuffix = some s → ¬ s = "" →
       (∀ d ∈ config.AMTDomains, ¬ d.DomainSuffix = s) →
       remoteConfiguration env config (some conn) cindex fwOpt
         = .errorText domainMismatchMsg) := by
  constructor
  · intro hd
    have hg : getProvisioningCertObj env config conn.dnsSuffix conn
        = .errorText missingDomainMsg := by rw [hd]; rfl
    rw [remoteConfiguration, hg]
  · intro hd hs hnone
    have hf : config.AMTDomains.find? (fun d => d.DomainSuffix == s) = none :=
      List.find?_eq_none.2 (fun x hx => by simpa using hnone x hx)
    have hg : getProvisioningCertObj env config conn.dnsSuffix conn
        = .errorText domainMismatchMsg := by
      rw [hd, getProvisioningCertObj]
      simp [hs, hf]
    rw [remoteConfiguration, hg]

/-- Claim C7, witness: both domain failures on concrete connections. -/
theorem C7_witness :
    remoteConfiguration envH cfgH (some connNoDomain) 0 (some [9])
      = .errorText missingDomainMsg
    ∧ remoteConfiguration envH cfgH (some connBadDomain) 0 (some [9])
      = .errorText domainMismatchMsg :=
  ⟨(C7_domain_errors envH cfgH connNoDomain 0 (some [9]) "x").1 rfl,
   (C7_domain_errors envH cfgH connBadDomain 0 (some [9]) "x.com").2 rfl
     (by decide) (by decide)⟩

/-- Claim C8: with no profile recorded (absent, empty or null) the engine
resolves the password of the first configured profile without error — and a
successful payload's password digest is built from that first password;
with a recorded profile matching no configured `ProfileName` it fails with
the unknown-profile error and resolves no password at all. -/
theorem C8_profile_resolution (env : Env) (config : RcsConfig)
    (conn : Connection) (cindex : Nat) (fwOpt : Option Bytes) (p : RcsPayload)
    (c : AMTConfiguration) (rest : List AMTConfiguration) (pn : String) :
    ((conn.profile = none ∨ conn.profile = some "") →
      config.AMTConfigurations = c :: rest →
      resolveAmtPassword config conn.profile = .ok c.AMTPassword)
    ∧ (conn.profile = some pn → ¬ pn = "" →
       (∀ cc ∈ config.AMTConfigurations, ¬ cc.ProfileName = pn) →
       resolveAmtPassword config conn.profile = .errorText profileMismatchMsg)
    ∧ (remoteConfiguration env config (some conn) cindex fwOpt = .ok p →
       (conn.profile = none ∨ conn.profile = some "") →
       config.AMTConfigurations = c :: rest →
       p.password = env.md5hex
         ("admin:" ++ jsToString conn.digestRealm ++ ":" ++ c.AMTPassword)) := by
  have hfirst : (conn.profile = none ∨ conn.profile = some "") →
      config.AMTConfigurations = c :: rest →
      resolveAmtPassword config conn.profile = .ok c.AMTPassword := by
    rintro (hprof | hprof) hcfg <;>
      simp [resolveAmtPassword, firstAmtPassword, hprof, hcfg]
  refine ⟨hfirst, ?_, ?_⟩
  · intro hprof hpn hnomatch
    have hf : config.AMTConfigurations.find? (fun cc => cc.ProfileName == pn)
        = none :=
      List.find?_eq_none.2 (fun x hx => by simpa using hnomatch x hx)
    rw [hprof]
    simp [resolveAmtPassword, hpn, hf]
  · intro h hprof hcfg
    obtain ⟨o, fw, pw, cfg, -, -, -, hpw, -, -, hp⟩ :=
      remoteConfiguration_ok_inv env config conn cindex fwOpt p h
    rw [hfirst hprof hcfg] at hpw
    injection hpw with hpq
    rw [hp, hpq]

/-- Claim C8, witness: the profile-less connection uses "pw1" without
error (also end to end, through the payload's digest), and an unknown
profile name yields the unknown-profile error. -/
theorem C8_witness :
    resolveAmtPassword cfgH connH.profile = .ok "pw1"
    ∧ resolveAmtPassword cfgH connBadProfile.profile
        = .errorText profileMismatchMsg
    ∧ payloadH.password
        = envH.md5hex ("admin:" ++ jsToString connH.digestRealm ++ ":" ++ "pw1") :=
  ⟨(C8_profile_resolution envH cfgH connH 0 (some [9]) payloadH
      ⟨"default", "pw1", none⟩ [] "x").1 (Or.inl rfl) rfl,
   (C8_profile_resolution envH cfgH connBadProfile 0 (some [9]) payloadH
      ⟨"default", "pw1", none⟩ [] "nope").2.1 rfl (by decide) (by decide),
   (C8_profile_resolution envH cfgH connH 0 (some [9]) payloadH
      ⟨"default", "pw1", none⟩ [] "x").2.2 (by decide) (Or.inl rfl) rfl⟩

/-- Claim C9: on every successful resolution, for the digest realm R
recorded on the connection and the resolved AMT password P, the payload's
password is the MD5 hex digest of exactly the string `admin:R:P`. -/
theorem C9_password_digest (env : Env) (config : RcsConfig) (conn : Connection)
    (cindex : Nat) (fwOpt : Option Bytes) (p : RcsPayload) (R P : String)
    (h : remoteConfiguration env config (some conn) cindex fwOpt = .ok p)
    (hR : conn.digestRealm = some R)
    (hP : resolveAmtPassword config conn.profile = .ok P) :
    p.password = env.md5hex ("admin:" ++ R ++ ":" ++ P) := by
  obtain ⟨o, fw, pw, cfg, -, -, -, hpw, -, -, hp⟩ :=
    remoteConfiguration_ok_inv env config conn cindex fwOpt p h
  rw [hP] at hpw
  injection hpw with hpq
  rw [hp, hR, hpq]
  rfl

/-- Claim C9, witness: the happy-path digest at realm "R" and password
"pw1". -/
theorem C9_witness :
    payloadH.password = envH.md5hex ("admin:" ++ "R" ++ ":" ++ "pw1") :=
  C9_password_digest envH cfgH connH 0 (some [9]) payloadH "R" "pw1"
    (by decide) (by decide) (by decide)

/-- Claim C10: when the configured `ConfigurationScript` (at the index the
engine actually uses) is null or empty, or reading it fails, a successful
payload still carries `profileScript = null`; script resolution for a
present configuration entry never produces an error or an exception; and
replacing the file reader by one that always fails turns a successful run
into the same successful run with `profileScript = null` — a script read
failure never fails the whole request. -/
theorem C10_profile_script (env : Env) (config : RcsConfig) (conn : Connection)
    (cindex : Nat) (fwOpt : Option Bytes) (p : RcsPayload)
    (cfg : AMTConfiguration) :
    ((remoteConfiguration env config (some conn) cindex fwOpt = .ok p) →
      config.AMTConfigurations[cindex]? = some cfg →
      (cfg.ConfigurationScript = none ∨ cfg.ConfigurationScript = some ""
        ∨ (∀ path, cfg.ConfigurationScript = some path →
            env.readFile path = .error ())) →
      p.profileScript = none)
    ∧ (∃ v, resolveProfileScript env (some cfg) = .ok v)
    ∧ ((remoteConfiguration env config (some conn) cindex fwOpt = .ok p) →
       remoteConfiguration { env with readFile := fun _ => .error () } config
         (some conn) cindex fwOpt = .ok { p with profileScript := none }) := by
  have hscript_none : ∀ cfg2 : AMTConfiguration,
      resolveProfileScript { env with readFile := fun _ => .error () }
        (some cfg2) = .ok none := by
    intro cfg2
    rw [resolveProfileScript]
    cases cfg2.ConfigurationScript with
    | none => rfl
    | some path =>
      by_cases hp : path = "" <;> simp [hp]
  refine ⟨?_, ?_, ?_⟩
  · intro h hcfg hdisj
    obtain ⟨o, fw, pw, cfg2, -, -, -, -, hcfg2, hscript, -⟩ :=
      remoteConfiguration_ok_inv env config conn cindex fwOpt p h
    rw [hcfg] at hcfg2
    injection hcfg2 with hceq
    subst hceq
    rcases hdisj with hd | hd | hd
    · rw [resolveProfileScript, hd] at hscript
      injection hscript with hv
      exact hv.symm
    · rw [resolveProfileScript, hd] at hscript
      simp at hscript
      exact hscript.symm
    · cases hcs : cfg.ConfigurationScript with
      | none =>
        rw [resolveProfileScript, hcs] at hscript
        injection hscript with hv
        exact hv.symm
      | some path =>
        by_cases hpe : path = ""
        · rw [resolveProfileScript, hcs] at hscript
          simp [hpe] at hscript
          exact hscript.symm
        · rw [resolveProfileScript, hcs] at hscript
          simp [hpe, hd path hcs] at hscript
          exact hscript.symm
  · rw [resolveProfileScript]
    cases hcs : cfg.ConfigurationScript with
    | none => exact ⟨none, rfl⟩
    | some path =>
      by_cases hpe : path = ""
      · exact ⟨none, by simp [hpe]⟩
      · cases hr : env.readFile path with
        | ok s => exact ⟨some s, by simp [hpe, hr]⟩
        | error u => exact ⟨none, by simp [hpe, hr]⟩
  · intro h
    obtain ⟨o, fw, pw, cfg2, hg, hfw, hsig, hpw, hcfg2, hscript, hp⟩ :=
      remoteConfiguration_ok_inv env config conn cindex fwOpt p h
    subst hfw
    have hg2 : getProvisioningCertObj { env with readFile := fun _ => .error () }
        config conn.dnsSuffix conn = .ok o := hg
    have hsig2 : signString { env with readFile := fun _ => .error () }
        (fw ++ generateNonce { env with readFile := fun _ => .error () })
        o.privateKey = .ok p.signature := hsig
    rw [remoteConfiguration, hg2]
    simp only [hsig2, hpw, hcfg2, hscript_none cfg2]
    rw [hp]
    rfl

/-- Claim C10, witness: the happy-path payload has a null script, its
script resolution is error-free, and the same run with an always-failing
file reader still succeeds with a null script. -/
theorem C10_witness :
    payloadH.profileScript = none
    ∧ (∃ v, resolveProfileScript envH (some ⟨"default", "pw1", none⟩) = .ok v)
    ∧ remoteConfiguration { envH with readFile := fun _ => .error () } cfgH
        (some connH) 0 (some [9]) = .ok { payloadH with profileScript := none } :=
  ⟨(C10_profile_script envH cfgH connH 0 (some [9]) payloadH
      ⟨"default", "pw1", none⟩).1 (by decide) (by decide) (Or.inl rfl),
   (C10_profile_script envH cfgH connH 0 (some [9]) payloadH
      ⟨"default", "pw1", none⟩).2.1,
   (C10_profile_script envH cfgH connH 0 (some [9]) payloadH
      ⟨"default", "pw1", none⟩).2.2 (by decide)⟩

end AmtRcs
